import Mathlib

/-!
Verification of the subiquity server orchestrator core
(`subiquity/server/server.py`) against its natural-language specification.

The Python source is shallowly embedded: pure fragments become Lean
functions; effectful fragments (state writes, file writes, waiter release,
subprocess invocation) become explicit state passing together with traces
of primitive actions, so that ordering properties ("persisted before
waiters are released") are statable.  Fallible code returns `Except`.
-/

namespace Subiquity

/-- `subiquity.common.types.ApplicationState`: the process-wide lifecycle
state enum.  Only its identity and its `name` (persisted to the
server-state file) matter to the orchestrator. -/
inductive ApplicationState where
  | STARTING_UP
  | CLOUD_INIT_WAIT
  | EARLY_COMMANDS
  | WAITING
  | NEEDS_CONFIRMATION
  | RUNNING
  | POST_WAIT
  | POST_RUNNING
  | UU_RUNNING
  | UU_CANCELLING
  | DONE
  | ERROR
  | EXITED
deriving DecidableEq, Repr

/-- `state.name` as used by `update_state` when persisting to the
server-state file. -/
def ApplicationState.name : ApplicationState → String
  | .STARTING_UP => "STARTING_UP"
  | .CLOUD_INIT_WAIT => "CLOUD_INIT_WAIT"
  | .EARLY_COMMANDS => "EARLY_COMMANDS"
  | .WAITING => "WAITING"
  | .NEEDS_CONFIRMATION => "NEEDS_CONFIRMATION"
  | .RUNNING => "RUNNING"
  | .POST_WAIT => "POST_WAIT"
  | .POST_RUNNING => "POST_RUNNING"
  | .UU_RUNNING => "UU_RUNNING"
  | .UU_CANCELLING => "UU_CANCELLING"
  | .DONE => "DONE"
  | .ERROR => "ERROR"
  | .EXITED => "EXITED"

/-- `subiquity.common.types.PasswordKind`. -/
inductive PasswordKind where
  | NONE
  | UNKNOWN
  | KNOWN
deriving DecidableEq, Repr

/-- `subiquity.common.types.KeyFingerprint`. -/
structure KeyFingerprint where
  keytype : String
  fingerprint : String
deriving DecidableEq, Repr

/-- `subiquity.common.types.LiveSessionSSHInfo`. -/
structure LiveSessionSSHInfo where
  username : String
  password_kind : PasswordKind
  password : Option String
  authorized_key_fingerprints : List KeyFingerprint
  ips : List String
  host_key_fingerprints : List KeyFingerprint
deriving DecidableEq, Repr

/-! ## Request Gate (`SubiquityServer.middleware`), view-probe dispatch

The middleware inspects, for a request addressed to a `SubiquityController`
that carries the `x-make-view-request: yes` header, the controller's
`interactive()` self-report, the global application state, and whether the
controller's model is postinstall-only, and either short-circuits with an
`x-status` override header or invokes the handler. -/

/-- The `x-status` override markers produced by the middleware. -/
inductive OverrideStatus where
  | skip
  | confirm
deriving DecidableEq, Repr

/-- The view-probe dispatch decision of `SubiquityServer.middleware`
(lines 427-436): `none` means the underlying handler is invoked. -/
def middleware_override (is_subiquity_controller : Bool)
    (make_view_request : Bool) (ctrl_interactive : Bool)
    (state : ApplicationState) (postinstall_only : Bool) :
    Option OverrideStatus :=
  if is_subiquity_controller then
    if make_view_request then
      if !ctrl_interactive then
        some .skip
      else if state = .NEEDS_CONFIRMATION then
        if postinstall_only then some .confirm else none
      else none
    else none
  else none

/-- A response as seen by the middleware: its headers and the
exception (if any) that the API-server handler wrapper recorded on it. -/
structure Resp where
  headers : List (String × String)
  exception : Option String
deriving DecidableEq, Repr

/-- Look up a header value on a response. -/
def Resp.header (r : Resp) (k : String) : Option String :=
  (r.headers.find? (fun p => p.1 = k)).map Prod.snd

/-- Add (prepend) a header to a response. -/
def Resp.withHeader (r : Resp) (k v : String) : Resp :=
  { r with headers := (k, v) :: r.headers }

/-- The string value placed in the `x-status` header. -/
def OverrideStatus.str : OverrideStatus → String
  | .skip => "skip"
  | .confirm => "confirm"

/-- Modelled from the spec: the API handler wrapper
(`subiquity.common.api.server.bind`, whose source is not under `src/`)
catches any fault raised by the endpoint implementation and records it on
the structured response instead of letting it propagate, so the middleware
always receives a `Resp` ("clients must always receive a structured
response, never a raw transport error"). -/
def run_handler (h : Except String Resp) : Resp :=
  match h with
  | .ok r => r
  | .error e => { headers := [], exception := some e }

/-- `SubiquityServer.middleware` (lines 425-453).  Inputs: the view-probe
gate facts, the (wrapped) handler result, `self.updated`, the request's
`raw_path`, and the number of error reports made so far by
`self.error_reporter`.  Output: the response sent to the client, whether
the underlying handler was invoked, and the new report count. -/
def middleware (is_subiquity_controller make_view_request ctrl_interactive : Bool)
    (state : ApplicationState) (postinstall_only : Bool)
    (handler_resp : Resp) (updated : Bool) (raw_path : String)
    (reports_made : Nat) : Resp × Bool × Nat :=
  let override_status := middleware_override is_subiquity_controller
    make_view_request ctrl_interactive state postinstall_only
  let (resp, handler_invoked) :=
    match override_status with
    | some ov => (({ headers := [("x-status", ov.str)], exception := none } : Resp), false)
    | none => (handler_resp, true)
  let resp := resp.withHeader "x-updated" (if updated then "yes" else "no")
  match resp.exception with
  | some _ =>
    let resp := resp.withHeader "x-error-report" ("ref-for-request-to-" ++ raw_path)
    (resp, handler_invoked, reports_made + 1)
  | none => (resp, handler_invoked, reports_made)

/-! ## `MetaController.interactive_sections_GET` (lines 152-166) -/

/-- The per-controller facts `interactive_sections_GET` reads from each
live instance in `self.app.controllers.instances`: its `autoinstall_key`
and its `interactive()` self-report at the moment of the call. -/
structure MetaCtrl where
  autoinstall_key : Option String
  interactive : Bool
deriving DecidableEq, Repr

/-- `MetaController.interactive_sections_GET`.  First argument:
`self.app.autoinstall_config` (`none` when no autoinstall config is
loaded), with the stored `interactive-sections` value inside (`none` when
the key is absent). -/
def interactive_sections_GET
    (autoinstall_config : Option (Option (List String)))
    (instances : List MetaCtrl) : Option (List String) :=
  match autoinstall_config with
  | none => none
  | some i_sections =>
    if i_sections = some ["*"] then
      some (instances.filterMap fun c =>
        if c.interactive then c.autoinstall_key else none)
    else
      i_sections

/-! ## `MetaController.ssh_info_GET` (lines 113-141) -/

/-- A network device as read by `ssh_info_GET`. -/
structure NetDev where
  actual_global_ip_addresses : List String
deriving DecidableEq, Repr

/-- In the source, the guard at line 128 is `if not user_key_fingerprints`
where `user_key_fingerprints` is the imported function object (the local
list is named `user_fingerprints`); a Python function object is always
truthy, so the guard is constantly false. -/
def user_key_fingerprints_is_truthy : Bool := true

/-- Lines 114-117 of `ssh_info_GET`: gather every device's actual global
IP addresses, in order; an absent `self.app.base_model.network` yields
none. -/
def global_ips (network : Option (List NetDev)) : List String :=
  match network with
  | none => []
  | some devs => devs.foldl (fun acc dev => acc ++ dev.actual_global_ip_addresses) []

/-- `MetaController.ssh_info_GET`.  `network` is
`self.app.base_model.network` (`none` when absent) with its devices;
the fingerprint lists stand for the results of the external
`user_key_fingerprints(username)` and `host_key_fingerprints()` calls. -/
def ssh_info_GET (network : Option (List NetDev))
    (installer_user_name : Option String)
    (installer_user_passwd_kind : PasswordKind)
    (installer_user_passwd : Option String)
    (user_fingerprints host_fingerprints : List KeyFingerprint) :
    Option LiveSessionSSHInfo :=
  let ips : List String := global_ips network
  if ips.isEmpty then none
  else
    match installer_user_name with
    | none => none
    | some username =>
      if installer_user_passwd_kind = .NONE ∧ !user_key_fingerprints_is_truthy then
        none
      else
        some { username := username
               password_kind := installer_user_passwd_kind
               password := installer_user_passwd
               authorized_key_fingerprints := user_fingerprints
               ips := ips
               host_key_fingerprints := host_fingerprints }

/-! ## `SubiquityServer.select_autoinstall` (lines 573-604)

The filesystem is embedded as an association list from path to file
contents (newest binding first), so that both `os.path.exists` and the
effect of `copy_file_if_exists` are expressible. -/

/-- A filesystem: path-to-contents bindings, newest first. -/
def Fs : Type := List (String × String)

/-- Contents of a path, if it exists. -/
def Fs.lookup (fs : Fs) (p : String) : Option String :=
  (List.find? (fun e => e.1 = p) fs).map Prod.snd

/-- `os.path.exists`. -/
def Fs.pathExists (fs : Fs) (p : String) : Bool :=
  (fs.lookup p).isSome

/-- Write (or overwrite) a file. -/
def Fs.write (fs : Fs) (p c : String) : Fs :=
  (p, c) :: fs

/-- `subiquitycore.file_util.copy_file_if_exists`: copy `src` to `dst`
when `src` exists, otherwise do nothing. -/
def copy_file_if_exists (fs : Fs) (src dst : String) : Fs :=
  match fs.lookup src with
  | some c => fs.write dst c
  | none => fs

/-- Does a path end in a separator. -/
def ends_in_slash (a : String) : Bool :=
  a.data.getLast? = some '/'

/-- `os.path.join` for the relative second components used here. -/
def path_join (a b : String) : String :=
  if ends_in_slash a then a ++ b else a ++ "/" ++ b

/-- Module constant `iso_autoinstall_path`. -/
def iso_autoinstall_path : String := "cdrom/autoinstall.yaml"

/-- Module constant `root_autoinstall_path`. -/
def root_autoinstall_path : String := "autoinstall.yaml"

/-- Module constant `cloud_autoinstall_path`. -/
def cloud_autoinstall_path : String := "run/subiquity/cloud.autoinstall.yaml"

/-- The inputs `select_autoinstall` consults: `self.base_model.root`,
`self.opts.autoinstall`, and the filesystem. -/
structure AutoinstallEnv where
  root : String
  opts_autoinstall : Option String
  fs : Fs

/-- `SubiquityServer.base_relative`. -/
def AutoinstallEnv.base_relative (env : AutoinstallEnv) (p : String) : String :=
  path_join env.root p

/-- The candidate locations tuple built at lines 589-594, in source
order: root of target storage, command-line argument, cloud config,
installation media. -/
def candidate_locations (env : AutoinstallEnv) : List (Option String) :=
  [some (env.base_relative root_autoinstall_path),
   env.opts_autoinstall,
   some (env.base_relative cloud_autoinstall_path),
   some (env.base_relative iso_autoinstall_path)]

/-- The `for`-`else` scan at lines 596-604: find the first non-`None`
existing location, copy it to the canonical root location and return that
path, or return `None` when no candidate exists.  Also returns the
filesystem after the copy. -/
def select_autoinstall_scan (env : AutoinstallEnv) : Option String × Fs :=
  match (candidate_locations env).find? (fun l =>
      match l with
      | some p => env.fs.pathExists p
      | none => false) with
  | some (some loc) =>
    let rootpath := env.base_relative root_autoinstall_path
    (some rootpath, copy_file_if_exists env.fs loc rootpath)
  | _ => (none, env.fs)

/-- `SubiquityServer.select_autoinstall`: `Except.error` models the
`raise` for an operator-named-but-missing source; the `Option String` is
the returned path (`none` for both the disabled and the not-found
outcomes, as in the source). -/
def select_autoinstall (env : AutoinstallEnv) :
    Except String (Option String × Fs) :=
  if env.opts_autoinstall = some "" then
    .ok (none, env.fs)
  else
    match env.opts_autoinstall with
    | some p =>
      if !env.fs.pathExists p then
        .error ("Autoinstall argument " ++ p ++ " not found")
      else
        .ok (select_autoinstall_scan env)
    | none => .ok (select_autoinstall_scan env)

/-! ## `SubiquityServer.set_installer_password` (lines 613-660) -/

/-- Break a character list at its first colon: the part before and the
part after, or `none` when there is no colon. -/
def break_at_colon : List Char → Option (List Char × List Char)
  | [] => none
  | c :: cs =>
    if c = ':' then some ([], cs)
    else
      match break_at_colon cs with
      | none => none
      | some (a, b) => some (c :: a, b)

/-- Python `contents.split(":", 1)` followed by unpacking into two names:
`some (before, after)` splits at the first colon; `none` models the
`ValueError` raised when the contents hold no colon. -/
def split_once_on_colon (s : String) : Option (String × String) :=
  (break_at_colon s.data).map (fun ab => (⟨ab.1⟩, ⟨ab.2⟩))

/-- The mutable server fields `set_installer_password` reads and writes. -/
structure PwState where
  installer_user_name : Option String
  installer_user_passwd_kind : PasswordKind
  installer_user_passwd : Option String
deriving DecidableEq, Repr

/-- The external facts `set_installer_password` consults:
the contents of the `installer-user-passwd` stamp file (if it exists),
dry-run mode, `os.environ["USER"]`, the value `rand_user_password()`
would produce, the `/etc/shadow` scan result, the cloud-init log scan
result, whether `user_key_fingerprints(username)` is non-empty, and
whether `chpasswd` would succeed. -/
structure PwEnv where
  passfile : Option String
  dry_run : Bool
  env_user : String
  rand_password : String
  user_has_password : Bool
  cloudinit_log_passwd : Option String
  has_user_key_fingerprints : Bool
  chpasswd_ok : Bool
deriving DecidableEq, Repr

/-- The outcome of one `set_installer_password` call: the new server
fields, the stamp file afterwards, and whether `chpasswd` was invoked
(the only password-change mechanism in the function). -/
structure PwResult where
  st : PwState
  passfile : Option String
  ran_chpasswd : Bool
deriving DecidableEq, Repr

/-- `SubiquityServer.set_installer_password`.  `Except.error` models the
`ValueError` from unpacking a colon-free stamp. -/
def set_installer_password (st : PwState) (env : PwEnv) :
    Except String PwResult :=
  match st.installer_user_name with
  | none =>
    -- there was no default user or cloud-init was disabled.
    .ok { st := st, passfile := env.passfile, ran_chpasswd := false }
  | some username =>
    match env.passfile with
    | some contents =>
      match split_once_on_colon contents with
      | none => .error "ValueError"
      | some (n, p) =>
        .ok { st := { installer_user_name := some n
                      installer_user_passwd_kind := .KNOWN
                      installer_user_passwd := some p }
              passfile := env.passfile
              ran_chpasswd := false }
    | none =>
      if env.dry_run then
        .ok { st := { installer_user_name := some env.env_user
                      installer_user_passwd_kind := .KNOWN
                      installer_user_passwd := some env.rand_password }
              passfile := some (env.env_user ++ ":" ++ env.rand_password)
              ran_chpasswd := false }
      else if env.user_has_password then
        match env.cloudinit_log_passwd with
        | some passwd =>
          if passwd ≠ "" then
            .ok { st := { installer_user_name := some username
                          installer_user_passwd_kind := .KNOWN
                          installer_user_passwd := some passwd }
                  passfile := some (username ++ ":" ++ passwd)
                  ran_chpasswd := false }
          else
            .ok { st := { st with installer_user_passwd_kind := .UNKNOWN }
                  passfile := env.passfile
                  ran_chpasswd := false }
        | none =>
          .ok { st := { st with installer_user_passwd_kind := .UNKNOWN }
                passfile := env.passfile
                ran_chpasswd := false }
      else if !env.has_user_key_fingerprints then
        if env.chpasswd_ok then
          .ok { st := { installer_user_name := some username
                        installer_user_passwd_kind := .KNOWN
                        installer_user_passwd := some env.rand_password }
                passfile := some (username ++ ":" ++ env.rand_password)
                ran_chpasswd := true }
        else
          .ok { st := { st with installer_user_passwd_kind := .NONE }
                passfile := env.passfile
                ran_chpasswd := true }
      else
        .ok { st := { st with installer_user_passwd_kind := .NONE }
              passfile := env.passfile
              ran_chpasswd := false }

/-! ## `SubiquityServer.restart` (lines 709-719) and
`MetaController.restart_POST` (lines 95-96) -/

/-- Outcome of a `restart()` invocation: either the function returns
without doing anything, or `os.execvp` replaces the process image with
the given command line. -/
inductive RestartOutcome where
  | noop
  | exec (cmdline : List String)
deriving DecidableEq, Repr

/-- `SubiquityServer.restart`: `snapd_present` is `bool(self.snapd)`,
`executable` is `sys.executable`, `argv_tail` is `sys.argv[1:]`. -/
def restart (snapd_present dry_run : Bool) (executable : String)
    (argv_tail : List String) : RestartOutcome :=
  if !snapd_present then
    .noop
  else if dry_run then
    .exec ([executable, "-m", "subiquity.cmd.server"] ++ argv_tail)
  else
    .exec ["snap", "run", "subiquity.subiquity-server"]

/-- `MetaController.restart_POST` delegates to `self.app.restart()`. -/
def restart_POST (snapd_present dry_run : Bool) (executable : String)
    (argv_tail : List String) : RestartOutcome :=
  restart snapd_present dry_run executable argv_tail

/-! ## `SubiquityServer.update_state` (lines 381-385) and the
`status_GET` long-poll (lines 75-89)

`update_state` runs to completion with no `await` point, so under the
cooperative single-threaded scheduler no task can interleave with it.
`asyncio.Event.set()` resolves the futures of all currently-waiting
tasks; `clear()` immediately afterwards rearms the event without
un-waking them; a task calling `wait()` after the `clear()` blocks until
the next `set()`.  The embedding makes these semantics explicit: the
server state carries the list of blocked waiter ids, and `update_state`
emits a trace of primitive actions in source order, a released waiter
observing the value of `self.app.state` it reads on resumption. -/

/-- The server fields relevant to state-change notification: the current
`self._state`, the contents of the `server-state` file, and the ids of
the tasks currently blocked in `self.state_event.wait()`. -/
structure SrvState where
  _state : ApplicationState
  server_state_file : Option String
  waiters : List Nat
deriving DecidableEq, Repr

/-- Primitive actions of `update_state`, in execution order. -/
inductive StateAct where
  | set_state (s : ApplicationState)
  | write_file (contents : String)
  | release (w : Nat) (observed : ApplicationState)
  | rearm
deriving DecidableEq, Repr

/-- `SubiquityServer.update_state`: assign `self._state`, persist
`state.name` to the `server-state` file, `self.state_event.set()`
(release every blocked waiter, each observing the now-current state),
`self.state_event.clear()` (rearm). -/
def update_state (st : SrvState) (state : ApplicationState) :
    SrvState × List StateAct :=
  let st1 : SrvState := { st with _state := state }
  let st2 : SrvState := { st1 with server_state_file := some state.name }
  let releases := st2.waiters.map (fun w => StateAct.release w st2._state)
  let st3 : SrvState := { st2 with waiters := [] }
  (st3, StateAct.set_state state :: StateAct.write_file state.name ::
    (releases ++ [StateAct.rearm]))

/-- `MetaController.status_GET` up to its suspension point: when the
caller-supplied `cur` equals the current state the task blocks on
`self.app.state_event.wait()` (it joins the waiter list and no status is
returned yet); otherwise the current state is returned immediately. -/
def status_GET (st : SrvState) (w : Nat) (cur : Option ApplicationState) :
    SrvState × Option ApplicationState :=
  if cur = some st._state then
    ({ st with waiters := st.waiters ++ [w] }, none)
  else
    (st, some st._state)

/-- Number of times waiter `w` is released in a trace. -/
def releaseCount (tr : List StateAct) (w : Nat) : Nat :=
  (tr.filter (fun a =>
    match a with
    | .release w2 _ => w2 = w
    | _ => false)).length

/-! ## The early-command gate in `SubiquityServer.start` (lines 662-690) -/

/-- Primitive actions of one `start()` run, restricted to the
autoinstall-loading and early-command fragment. -/
inductive StartAct where
  | load_config (only_early : Bool)
  | to_state (s : ApplicationState)
  | sleep
  | run_early
  | write_stamp
deriving DecidableEq, Repr

/-- The per-run facts the gate consults: whether
`self.autoinstall_config` is truthy after the `only_early` load, and
whether `self.controllers.Early.cmds` is truthy. -/
structure StartEnv where
  config_truthy : Bool
  early_cmds : Bool
deriving DecidableEq, Repr

/-- Lines 670-679 of `start()`, the gate proper: when an autoinstall
config is loaded, the Early controller declares commands, and the
`early-commands` stamp file is absent — transition to `EARLY_COMMANDS`,
sleep, run the early commands, create the stamp file, sleep.  Input and
output `Bool`: does the stamp file exist. -/
def start_run_gate (env : StartEnv) (stamp : Bool) : Bool × List StartAct :=
  if env.config_truthy && env.early_cmds then
    if !stamp then
      (true, [StartAct.to_state .EARLY_COMMANDS, StartAct.sleep,
              StartAct.run_early, StartAct.write_stamp, StartAct.sleep])
    else (stamp, [])
  else (stamp, [])

/-- One `start()` run: the early-only config load, the gate, the full
config reload. -/
def start_run (env : StartEnv) (stamp : Bool) : Bool × List StartAct :=
  ((start_run_gate env stamp).1,
   StartAct.load_config true ::
     ((start_run_gate env stamp).2 ++ [StartAct.load_config false]))

/-- A sequence of `start()` runs (process restarts) over the persistent
stamp file; nothing in the server ever removes the stamp. -/
def start_runs (envs : List StartEnv) (stamp : Bool) :
    Bool × List (List StartAct) :=
  match envs with
  | [] => (stamp, [])
  | env :: rest =>
    ((start_runs rest (start_run env stamp).1).1,
     (start_run env stamp).2 :: (start_runs rest (start_run env stamp).1).2)

/-! ## `SubiquityServer.apply_autoinstall_config` (lines 455-465)

Applying one controller's config can change the world in ways that later
controllers' `interactive()` self-reports depend on, so a controller is
a record of functions over an abstract world state `σ`. -/

/-- A live controller instance as seen by the sweep. -/
structure Controller (σ : Type) where
  name : String
  interactive : σ → Bool
  apply_autoinstall_config : σ → σ
  configured : σ → σ

/-- One sweep event per controller visited, in visit order. -/
inductive SweepEvent where
  | skipped (name : String)
  | applied (name : String)
deriving DecidableEq, Repr

/-- `SubiquityServer.apply_autoinstall_config`: visit
`self.controllers.instances` in order; a controller whose
`interactive()` is true at that moment is skipped, otherwise its
`apply_autoinstall_config()` then `configured()` run. -/
def sweep_autoinstall {σ : Type} (instances : List (Controller σ)) (s : σ) :
    σ × List SweepEvent :=
  match instances with
  | [] => (s, [])
  | c :: rest =>
    if c.interactive s then
      ((sweep_autoinstall rest s).1,
       SweepEvent.skipped c.name :: (sweep_autoinstall rest s).2)
    else
      ((sweep_autoinstall rest (c.configured (c.apply_autoinstall_config s))).1,
       SweepEvent.applied c.name ::
         (sweep_autoinstall rest (c.configured (c.apply_autoinstall_config s))).2)

/-! ## Theorems -/

/-- C5: for every inbound request carrying the view-probe marker and
addressed to a stage controller, a non-interactive controller yields the
skip marker without invoking the handler; an interactive controller under
`NEEDS_CONFIRMATION` whose model is postinstall-only yields the
requires-confirmation marker without invoking the handler; in every other
case the handler is invoked normally. -/
theorem C5_view_probe_gate (is_sub mvr interactive : Bool)
    (state : ApplicationState) (postinstall_only : Bool)
    (handler_resp : Resp) (updated : Bool) (raw_path : String) (n : Nat) :
    (is_sub = true → mvr = true → interactive = false →
      (middleware is_sub mvr interactive state postinstall_only
        handler_resp updated raw_path n).1.header "x-status" = some "skip" ∧
      (middleware is_sub mvr interactive state postinstall_only
        handler_resp updated raw_path n).2.1 = false) ∧
    (is_sub = true → mvr = true → interactive = true →
      state = .NEEDS_CONFIRMATION → postinstall_only = true →
      (middleware is_sub mvr interactive state postinstall_only
        handler_resp updated raw_path n).1.header "x-status" = some "confirm" ∧
      (middleware is_sub mvr interactive state postinstall_only
        handler_resp updated raw_path n).2.1 = false) ∧
    ((is_sub = false ∨ mvr = false ∨
        (interactive = true ∧ (state ≠ .NEEDS_CONFIRMATION ∨ postinstall_only = false))) →
      (middleware is_sub mvr interactive state postinstall_only
        handler_resp updated raw_path n).2.1 = true) := by
  refine ⟨?_, ?_, ?_⟩
  · intro h1 h2 h3
    subst h1; subst h2; subst h3
    cases h : handler_resp.exception <;>
      simp [middleware, middleware_override, Resp.header, Resp.withHeader,
        List.find?, OverrideStatus.str]
  · intro h1 h2 h3 h4 h5
    subst h1; subst h2; subst h3; subst h4; subst h5
    cases h : handler_resp.exception <;>
      simp [middleware, middleware_override, Resp.header, Resp.withHeader,
        List.find?, OverrideStatus.str]
  · intro h
    have hov : middleware_override is_sub mvr interactive state postinstall_only
        = none := by
      rcases h with h | h | ⟨h1, h2⟩
      · subst h; simp [middleware_override]
      · subst h; simp [middleware_override]
      · subst h1
        rcases h2 with h2 | h2
        · simp [middleware_override, h2]
        · subst h2
          by_cases hst : state = ApplicationState.NEEDS_CONFIRMATION <;>
            simp [middleware_override, hst]
    cases hx : handler_resp.exception <;>
      simp [middleware, hov, hx, Resp.withHeader]

/-- C5 witness: a non-interactive controller probed for a view is skipped
without the handler running. -/
theorem C5_view_probe_gate_witness :
    (middleware true true false .WAITING false ⟨[], none⟩ false "p" 0).1.header
      "x-status" = some "skip" ∧
    (middleware true true false .WAITING false ⟨[], none⟩ false "p" 0).2.1 = false :=
  (C5_view_probe_gate true true false .WAITING false ⟨[], none⟩ false "p" 0).1
    rfl rfl rfl

/-- C6: a faulting handler still produces a structured response (the
wrapper records the fault on the response, the middleware returns it),
exactly one ErrorReport is created, and its reference is attached to
the response; and every response, fault or not, is annotated with
whether a system update was applied this run. -/
theorem C6_fault_boundary (is_sub mvr interactive : Bool)
    (state : ApplicationState) (postinstall_only : Bool)
    (hres : Except String Resp) (updated : Bool) (raw_path : String) (n : Nat) :
    (middleware_override is_sub mvr interactive state postinstall_only = none →
      ∀ e, hres = .error e →
        (run_handler hres).exception = some e ∧
        (middleware is_sub mvr interactive state postinstall_only
          (run_handler hres) updated raw_path n).1.header "x-error-report" =
            some ("ref-for-request-to-" ++ raw_path) ∧
        (middleware is_sub mvr interactive state postinstall_only
          (run_handler hres) updated raw_path n).2.2 = n + 1) ∧
    (∀ resp0 : Resp,
      (middleware is_sub mvr interactive state postinstall_only
        resp0 updated raw_path n).1.header "x-updated" =
          some (if updated then "yes" else "no")) ∧
    ((run_handler hres).exception = none →
      (middleware is_sub mvr interactive state postinstall_only
        (run_handler hres) updated raw_path n).2.2 = n) := by
  refine ⟨?_, ?_, ?_⟩
  · intro hov e he
    subst he
    refine ⟨rfl, ?_, ?_⟩ <;>
      simp [middleware, hov, run_handler, Resp.withHeader, Resp.header, List.find?]
  · intro resp0
    cases hov : middleware_override is_sub mvr interactive state postinstall_only with
    | some ov =>
      simp [middleware, hov, Resp.withHeader, Resp.header, List.find?]
    | none =>
      cases hx : resp0.exception <;>
        simp [middleware, hov, hx, Resp.withHeader, Resp.header, List.find?]
  · intro hx
    cases hov : middleware_override is_sub mvr interactive state postinstall_only <;>
      simp [middleware, hov, hx, Resp.withHeader]

/-- C6 witness: a handler fault on a pass-through request yields a
response carrying the error-report reference and exactly one new
report. -/
theorem C6_fault_boundary_witness :
    (run_handler (.error "boom")).exception = some "boom" ∧
    (middleware false false false .WAITING false (run_handler (.error "boom"))
      false "crash" 0).1.header "x-error-report" =
        some ("ref-for-request-to-" ++ "crash") ∧
    (middleware false false false .WAITING false (run_handler (.error "boom"))
      false "crash" 0).2.2 = 0 + 1 :=
  (C6_fault_boundary false false false .WAITING false (.error "boom")
    false "crash" 0).1 rfl "boom" rfl

/-- C7: with no autoinstall config the query returns `None`; with the
wildcard `["*"]` it returns exactly the autoinstall keys of the
currently-instantiated controllers that self-report interactive and have
a non-`None` key, computed fresh from the instance list at each call (a
changed self-report changes the result); otherwise the stored value is
returned unchanged. -/
theorem C7_interactive_sections (instances : List MetaCtrl) :
    interactive_sections_GET none instances = none ∧
    (∃ l, interactive_sections_GET (some (some ["*"])) instances = some l ∧
      ∀ k, k ∈ l ↔ ∃ c, c ∈ instances ∧ c.interactive = true ∧
        c.autoinstall_key = some k) ∧
    (∀ i_sections, i_sections ≠ some ["*"] →
      interactive_sections_GET (some i_sections) instances = i_sections) ∧
    (∃ a b : MetaCtrl, a.autoinstall_key = b.autoinstall_key ∧
      interactive_sections_GET (some (some ["*"])) [a] ≠
        interactive_sections_GET (some (some ["*"])) [b]) := by
  refine ⟨rfl, ?_, ?_, ?_⟩
  · refine ⟨_, rfl, ?_⟩
    intro k
    simp only [List.mem_filterMap]
    refine exists_congr fun c => ?_
    cases hc : c.interactive <;> simp [hc]
  · intro i_sections h
    simp [interactive_sections_GET, h]
  · refine ⟨⟨some "k", true⟩, ⟨some "k", false⟩, rfl, ?_⟩
    simp [interactive_sections_GET]

/-- C7 witness: a stored non-wildcard value (here: key absent) is
returned unchanged for a concrete instance list. -/
theorem C7_interactive_sections_witness :
    interactive_sections_GET (some none) [⟨some "a", true⟩] = none :=
  (C7_interactive_sections [⟨some "a", true⟩]).2.2.1 none (by simp)

/-- C9 counterexample: with snapd unavailable (`self.snapd` is `None`),
a restart request returns without replacing the process image, so the
claim that every restart invocation re-execs fails at this input. -/
theorem C9_restart_counterexample :
    restart_POST false false "/usr/bin/python3" [] = .noop ∧
    ∀ cmdline, restart_POST false false "/usr/bin/python3" [] ≠ .exec cmdline := by
  refine ⟨rfl, ?_⟩
  intro cmdline
  simp [restart_POST, restart]

/-- C9 (amended): whenever a restart is requested via the restart
endpoint and snapd is available, the process replaces itself by re-exec;
when snapd is unavailable the request is a no-op. -/
theorem C9_restart_amended (dry_run : Bool) (executable : String)
    (argv_tail : List String) :
    (∃ cmdline, restart_POST true dry_run executable argv_tail = .exec cmdline) ∧
    restart_POST false dry_run executable argv_tail = .noop := by
  refine ⟨?_, rfl⟩
  cases dry_run <;> exact ⟨_, rfl⟩

/-- C10: `ssh_info_GET` returns `None` exactly when there is no global
IP address or no installer user name; whenever both are present the
result is populated, including when the password kind is `NONE` and the
user has no authorized-key fingerprints (the guard at line 128 tests the
truthiness of the imported function object, which never holds). -/
theorem C10_ssh_info (network : Option (List NetDev))
    (username : Option String) (kind : PasswordKind) (passwd : Option String)
    (ufp hfp : List KeyFingerprint) :
    ((ssh_info_GET network username kind passwd ufp hfp = none) ↔
      (global_ips network = [] ∨ username = none)) ∧
    (global_ips network ≠ [] → username ≠ none →
      (ssh_info_GET network username .NONE passwd [] hfp).isSome = true) := by
  constructor
  · cases hu : username <;> by_cases hips : global_ips network = [] <;>
      simp [ssh_info_GET, hips, hu, List.isEmpty_iff, user_key_fingerprints_is_truthy]
  · intro hips hu
    cases hu' : username with
    | none => exact absurd hu' hu
    | some u =>
      simp [ssh_info_GET, hips, List.isEmpty_iff, user_key_fingerprints_is_truthy]

/-- C10 witness: one global IP, a known user, password kind `NONE`, no
authorized keys — the result is still populated. -/
theorem C10_ssh_info_witness :
    (ssh_info_GET (some [⟨["192.0.2.7"]⟩]) (some "ubuntu") .NONE none [] []).isSome
      = true :=
  (C10_ssh_info (some [⟨["192.0.2.7"]⟩]) (some "ubuntu") .NONE none [] []).2
    (by simp [global_ips]) (by simp)

/-- After `copy_file_if_exists fs src dst` with an existing `src`, the
destination holds exactly the source's contents. -/
theorem copy_file_if_exists_lookup (fs : Fs) (src dst : String)
    (h : fs.pathExists src = true) :
    (copy_file_if_exists fs src dst).lookup dst = fs.lookup src := by
  unfold copy_file_if_exists
  cases hl : fs.lookup src with
  | none => simp [Fs.pathExists, hl] at h
  | some c => simp [Fs.write, Fs.lookup, List.find?]

/-- C2: an explicitly-empty operator source disables autoinstall
regardless of the other candidates; a non-empty operator source that
does not exist fails fatally; otherwise the highest-precedence existing
candidate — root of target storage, then operator-supplied, then cloud
metadata, then installation media — wins, is copied to the canonical
root location, and that canonical path is returned; with no candidate
the not-found outcome (`None`) results. -/
theorem C2_select_autoinstall (env : AutoinstallEnv) :
    (env.opts_autoinstall = some "" →
      select_autoinstall env = .ok (none, env.fs)) ∧
    (∀ p, env.opts_autoinstall = some p → p ≠ "" →
      env.fs.pathExists p = false →
      select_autoinstall env =
        .error ("Autoinstall argument " ++ p ++ " not found")) ∧
    ((env.opts_autoinstall = none ∨
        ∃ p, env.opts_autoinstall = some p ∧ p ≠ "" ∧
          env.fs.pathExists p = true) →
      env.fs.pathExists (env.base_relative root_autoinstall_path) = true →
      select_autoinstall env =
        .ok (some (env.base_relative root_autoinstall_path),
          copy_file_if_exists env.fs (env.base_relative root_autoinstall_path)
            (env.base_relative root_autoinstall_path)) ∧
      (copy_file_if_exists env.fs (env.base_relative root_autoinstall_path)
          (env.base_relative root_autoinstall_path)).lookup
            (env.base_relative root_autoinstall_path) =
        env.fs.lookup (env.base_relative root_autoinstall_path)) ∧
    (∀ p, env.opts_autoinstall = some p → p ≠ "" →
      env.fs.pathExists p = true →
      env.fs.pathExists (env.base_relative root_autoinstall_path) = false →
      select_autoinstall env =
        .ok (some (env.base_relative root_autoinstall_path),
          copy_file_if_exists env.fs p (env.base_relative root_autoinstall_path)) ∧
      (copy_file_if_exists env.fs p
          (env.base_relative root_autoinstall_path)).lookup
            (env.base_relative root_autoinstall_path) = env.fs.lookup p) ∧
    (env.opts_autoinstall = none →
      env.fs.pathExists (env.base_relative root_autoinstall_path) = false →
      env.fs.pathExists (env.base_relative cloud_autoinstall_path) = true →
      select_autoinstall env =
        .ok (some (env.base_relative root_autoinstall_path),
          copy_file_if_exists env.fs (env.base_relative cloud_autoinstall_path)
            (env.base_relative root_autoinstall_path)) ∧
      (copy_file_if_exists env.fs (env.base_relative cloud_autoinstall_path)
          (env.base_relative root_autoinstall_path)).lookup
            (env.base_relative root_autoinstall_path) =
        env.fs.lookup (env.base_relative cloud_autoinstall_path)) ∧
    (env.opts_autoinstall = none →
      env.fs.pathExists (env.base_relative root_autoinstall_path) = false →
      env.fs.pathExists (env.base_relative cloud_autoinstall_path) = false →
      env.fs.pathExists (env.base_relative iso_autoinstall_path) = true →
      select_autoinstall env =
        .ok (some (env.base_relative root_autoinstall_path),
          copy_file_if_exists env.fs (env.base_relative iso_autoinstall_path)
            (env.base_relative root_autoinstall_path)) ∧
      (copy_file_if_exists env.fs (env.base_relative iso_autoinstall_path)
          (env.base_relative root_autoinstall_path)).lookup
            (env.base_relative root_autoinstall_path) =
        env.fs.lookup (env.base_relative iso_autoinstall_path)) ∧
    (env.opts_autoinstall = none →
      env.fs.pathExists (env.base_relative root_autoinstall_path) = false →
      env.fs.pathExists (env.base_relative cloud_autoinstall_path) = false →
      env.fs.pathExists (env.base_relative iso_autoinstall_path) = false →
      select_autoinstall env = .ok (none, env.fs)) := by
  refine ⟨?_, ?_, ?_, ?_, ?_, ?_, ?_⟩
  · intro h
    simp [select_autoinstall, h]
  · intro p hp hne hex
    simp [select_autoinstall, hp, hne, hex]
  · intro hopts hroot
    refine ⟨?_, copy_file_if_exists_lookup env.fs _ _ hroot⟩
    rcases hopts with h | ⟨p, hp, hne, hex⟩
    · simp [select_autoinstall, h, select_autoinstall_scan, candidate_locations,
        List.find?, hroot]
    · simp [select_autoinstall, hp, hne, hex, select_autoinstall_scan,
        candidate_locations, List.find?, hroot]
  · intro p hp hne hex hroot
    refine ⟨?_, copy_file_if_exists_lookup env.fs _ _ hex⟩
    simp [select_autoinstall, hp, hne, hex, select_autoinstall_scan,
      candidate_locations, List.find?, hroot]
  · intro hopts hroot hcloud
    refine ⟨?_, copy_file_if_exists_lookup env.fs _ _ hcloud⟩
    simp [select_autoinstall, hopts, select_autoinstall_scan,
      candidate_locations, List.find?, hroot, hcloud]
  · intro hopts hroot hcloud hiso
    refine ⟨?_, copy_file_if_exists_lookup env.fs _ _ hiso⟩
    simp [select_autoinstall, hopts, select_autoinstall_scan,
      candidate_locations, List.find?, hroot, hcloud, hiso]
  · intro hopts hroot hcloud hiso
    simp [select_autoinstall, hopts, select_autoinstall_scan,
      candidate_locations, List.find?, hroot, hcloud, hiso]

/-- C2 witness: with no operator source, no root file and no cloud file,
the installation-media copy wins and lands at the canonical root
location. -/
theorem C2_select_autoinstall_witness :
    select_autoinstall
        { root := "/", opts_autoinstall := none,
          fs := [("/cdrom/autoinstall.yaml", "version: 1")] } =
      .ok (some "/autoinstall.yaml",
        [("/autoinstall.yaml", "version: 1"),
         ("/cdrom/autoinstall.yaml", "version: 1")]) :=
  ((C2_select_autoinstall
      { root := "/", opts_autoinstall := none,
        fs := [("/cdrom/autoinstall.yaml", "version: 1")] }).2.2.2.2.2.1
    rfl (by decide) (by decide) (by decide)).1

/-- `break_at_colon` splits verbatim at the first colon: the input is
the two parts rejoined around a colon, and the first part is colon-free. -/
theorem break_at_colon_spec (l a b : List Char)
    (h : break_at_colon l = some (a, b)) :
    l = a ++ ':' :: b ∧ ':' ∉ a := by
  induction l generalizing a b with
  | nil => simp [break_at_colon] at h
  | cons c cs ih =>
    by_cases hc : c = ':'
    · subst hc
      simp [break_at_colon] at h
      obtain ⟨ha, hb⟩ := h
      subst ha; subst hb
      simp
    · rw [break_at_colon, if_neg hc] at h
      cases hrec : break_at_colon cs with
      | none => rw [hrec] at h; simp at h
      | some ab =>
        obtain ⟨a', b'⟩ := ab
        rw [hrec] at h
        simp at h
        obtain ⟨ha, hb⟩ := h
        subst ha; subst hb
        obtain ⟨h1, h2⟩ := ih a' b' hrec
        constructor
        · simp [h1]
        · simp [h2]
          intro hh
          exact hc hh.symm

/-- C8: when the installer user name is known and the credential stamp
file exists, `set_installer_password` loads name and password verbatim
from the stamp (split at the first colon), marks the kind `KNOWN`, runs
no password change, and leaves the stamp untouched; a second invocation
against the same stamp yields the identical result, so the secret is
never regenerated or rotated. -/
theorem C8_installer_password_idempotent (st : PwState) (env : PwEnv)
    (username contents n p : String)
    (hname : st.installer_user_name = some username)
    (hstamp : env.passfile = some contents)
    (hsplit : split_once_on_colon contents = some (n, p)) :
    contents.data = n.data ++ ':' :: p.data ∧ ':' ∉ n.data ∧
    ∃ r : PwResult,
      set_installer_password st env = .ok r ∧
      r.st = { installer_user_name := some n,
               installer_user_passwd_kind := .KNOWN,
               installer_user_passwd := some p } ∧
      r.ran_chpasswd = false ∧
      r.passfile = some contents ∧
      set_installer_password r.st env = .ok r := by
  have hbreak : break_at_colon contents.data = some (n.data, p.data) := by
    unfold split_once_on_colon at hsplit
    cases hb : break_at_colon contents.data with
    | none => rw [hb] at hsplit; simp at hsplit
    | some ab =>
      rw [hb] at hsplit
      simp at hsplit
      obtain ⟨h1, h2⟩ := hsplit
      obtain ⟨a, b⟩ := ab
      have ha : a = n.data := by rw [← h1]
      have hbb : b = p.data := by rw [← h2]
      rw [ha, hbb]
  obtain ⟨hverb, hfree⟩ := break_at_colon_spec _ _ _ hbreak
  refine ⟨hverb, hfree,
    ⟨{ st := { installer_user_name := some n,
               installer_user_passwd_kind := .KNOWN,
               installer_user_passwd := some p },
       passfile := some contents, ran_chpasswd := false }, ?_, rfl, rfl, rfl, ?_⟩⟩
  · simp [set_installer_password, hname, hstamp, hsplit]
  · simp [set_installer_password, hstamp, hsplit]

/-- C8 witness: a persisted stamp `installer:s3cr:3t` is loaded verbatim
(split at the first colon) and a second invocation reproduces the same
outcome. -/
theorem C8_installer_password_idempotent_witness :
    ("installer:s3cr:3t" : String).data =
      ("installer" : String).data ++ ':' :: ("s3cr:3t" : String).data ∧
    ':' ∉ ("installer" : String).data ∧
    ∃ r : PwResult,
      set_installer_password
        { installer_user_name := some "ubuntu-server",
          installer_user_passwd_kind := .NONE,
          installer_user_passwd := none }
        { passfile := some "installer:s3cr:3t", dry_run := false,
          env_user := "u", rand_password := "rand",
          user_has_password := false, cloudinit_log_passwd := none,
          has_user_key_fingerprints := false, chpasswd_ok := true } = .ok r ∧
      r.st = { installer_user_name := some "installer",
               installer_user_passwd_kind := .KNOWN,
               installer_user_passwd := some "s3cr:3t" } ∧
      r.ran_chpasswd = false ∧
      r.passfile = some "installer:s3cr:3t" ∧
      set_installer_password r.st
        { passfile := some "installer:s3cr:3t", dry_run := false,
          env_user := "u", rand_password := "rand",
          user_has_password := false, cloudinit_log_passwd := none,
          has_user_key_fingerprints := false, chpasswd_ok := true } = .ok r :=
  C8_installer_password_idempotent
    { installer_user_name := some "ubuntu-server",
      installer_user_passwd_kind := .NONE, installer_user_passwd := none }
    { passfile := some "installer:s3cr:3t", dry_run := false,
      env_user := "u", rand_password := "rand",
      user_has_password := false, cloudinit_log_passwd := none,
      has_user_key_fingerprints := false, chpasswd_ok := true }
    "ubuntu-server" "installer:s3cr:3t" "installer" "s3cr:3t"
    rfl rfl (by decide)

/-- The sweep records one event per controller. -/
theorem sweep_autoinstall_length {σ : Type} (instances : List (Controller σ))
    (s : σ) : (sweep_autoinstall instances s).2.length = instances.length := by
  induction instances generalizing s with
  | nil => rfl
  | cons c rest ih =>
    by_cases h : c.interactive s <;> simp [sweep_autoinstall, h, ih]

/-- C4: the sweep visits the controllers in registry order, one event
per controller; the `i`-th controller is applied exactly when its
`interactive()` is false at the state reached when it is visited (the
check is re-evaluated per controller on the evolving state, never
computed once); an applied controller undergoes
`apply_autoinstall_config` then `configured`, and an interactive one is
left untouched. -/
theorem C4_sweep_applies_noninteractive (σ : Type)
    (instances : List (Controller σ)) (s : σ) :
    (sweep_autoinstall instances s).2.length = instances.length ∧
    ∀ i c, instances[i]? = some c →
      ((sweep_autoinstall instances s).2[i]? =
        some (if c.interactive ((sweep_autoinstall (instances.take i) s).1) then
          SweepEvent.skipped c.name
        else
          SweepEvent.applied c.name)) ∧
      (sweep_autoinstall (instances.take (i + 1)) s).1 =
        (if c.interactive ((sweep_autoinstall (instances.take i) s).1) then
          (sweep_autoinstall (instances.take i) s).1
        else
          c.configured (c.apply_autoinstall_config
            ((sweep_autoinstall (instances.take i) s).1))) := by
  refine ⟨sweep_autoinstall_length instances s, ?_⟩
  induction instances generalizing s with
  | nil => intro i c hc; simp at hc
  | cons c0 rest ih =>
    intro i c hc
    cases i with
    | zero =>
      simp at hc
      subst hc
      constructor
      · by_cases h : c0.interactive s <;>
          simp [sweep_autoinstall, h]
      · by_cases h : c0.interactive s <;>
          simp [sweep_autoinstall, h]
    | succ i =>
      simp at hc
      by_cases h : c0.interactive s
      · have := ih s i c hc
        simpa [sweep_autoinstall, h] using this
      · have := ih (c0.configured (c0.apply_autoinstall_config s)) i c hc
        simpa [sweep_autoinstall, h] using this

/-- C4 witness: two controllers over a boolean world where applying the
first flips the second's `interactive()` self-report to true — the
second is skipped even though it was non-interactive when the sweep
began, showing the per-controller re-evaluation. -/
theorem C4_sweep_applies_noninteractive_witness :
    (sweep_autoinstall
      [⟨"locale", fun _ => false, fun _ => true, id⟩,
       ⟨"network", fun w => w, fun w => w, id⟩]
      false).2[1]? = some (SweepEvent.skipped "network") := by
  have h := (C4_sweep_applies_noninteractive Bool
    [⟨"locale", fun _ => false, fun _ => true, id⟩,
     ⟨"network", fun w => w, fun w => w, id⟩] false).2
    1 ⟨"network", fun w => w, fun w => w, id⟩ rfl
  rw [h.1]
  simp [sweep_autoinstall]

/-- A `start()` run that finds the stamp present does nothing but the
two config loads and keeps the stamp. -/
theorem start_run_stamped (env : StartEnv) :
    start_run env true =
      (true, [StartAct.load_config true, StartAct.load_config false]) := by
  cases h : env.config_truthy && env.early_cmds <;>
    simp [start_run, start_run_gate, h]

/-- Once the stamp exists, no run in any sequence of restarts executes
the early commands. -/
theorem start_runs_stamped_no_early (envs : List StartEnv) :
    ∀ tr ∈ (start_runs envs true).2, StartAct.run_early ∉ tr := by
  induction envs with
  | nil => simp [start_runs]
  | cons env rest ih =>
    intro tr htr
    simp only [start_runs, start_run_stamped, List.mem_cons] at htr
    rcases htr with h | h
    · subst h
      simp [start_run_stamped]
    · exact ih tr (by simpa [start_run_stamped] using h)

/-- C3: a `start()` run executes the early commands exactly when an
autoinstall config is loaded, the Early controller declares commands,
and the stamp file is absent; the state transitions to `EARLY_COMMANDS`
strictly before execution and the stamp is written immediately after the
commands complete; the config is (re)loaded on every run, the stamp is
never erased, and once it exists no subsequent run ever executes the
early commands again. -/
theorem C3_early_commands_once (env : StartEnv) (stamp : Bool) :
    (StartAct.run_early ∈ (start_run env stamp).2 ↔
      (env.config_truthy = true ∧ env.early_cmds = true ∧ stamp = false)) ∧
    (StartAct.run_early ∈ (start_run env stamp).2 →
      ∃ i j, j < i ∧
        (start_run env stamp).2[j]? = some (StartAct.to_state .EARLY_COMMANDS) ∧
        (start_run env stamp).2[i]? = some StartAct.run_early ∧
        (start_run env stamp).2[i + 1]? = some StartAct.write_stamp) ∧
    StartAct.load_config true ∈ (start_run env stamp).2 ∧
    StartAct.load_config false ∈ (start_run env stamp).2 ∧
    (stamp = true → (start_run env stamp).1 = true) ∧
    (StartAct.run_early ∈ (start_run env stamp).2 → (start_run env stamp).1 = true) ∧
    (∀ envs, ∀ tr ∈ (start_runs envs true).2, StartAct.run_early ∉ tr) := by
  obtain ⟨ct, ec⟩ := env
  refine ⟨?_, ?_, ?_, ?_, ?_, ?_, fun envs => start_runs_stamped_no_early envs⟩ <;>
    cases ct <;> cases ec <;> cases stamp <;>
      simp [start_run, start_run_gate]
  exact ⟨3, 1, by decide, rfl, rfl, rfl⟩

/-- C3 witness: with a loaded config, declared early commands and no
stamp, the run executes the early commands. -/
theorem C3_early_commands_once_witness :
    StartAct.run_early ∈ (start_run ⟨true, true⟩ false).2 :=
  (C3_early_commands_once ⟨true, true⟩ false).1.mpr ⟨rfl, rfl, rfl⟩

/-- Filtering a release trace for one waiter counts that waiter's
occurrences in the blocked list. -/
theorem filter_release_length (l : List Nat) (w : Nat) (v : ApplicationState) :
    ((l.map (fun w0 => StateAct.release w0 v)).filter (fun a =>
      match a with
      | .release w2 _ => w2 = w
      | _ => false)).length = l.count w := by
  induction l with
  | nil => simp
  | cons a l ih =>
    by_cases h : a = w <;> simp [h, ih, List.count_cons]

/-- `update_state` releases a waiter as many times as it occurs in the
blocked list. -/
theorem releaseCount_update_state (st : SrvState) (new : ApplicationState)
    (w : Nat) :
    releaseCount (update_state st new).2 w = st.waiters.count w := by
  simp only [releaseCount, update_state, List.filter_cons, List.filter_append]
  simp [filter_release_length]

/-- C1: a state write persists the new state's name to the server-state
file, and in the action trace the persisting write strictly precedes
every waiter release; every waiter blocked at the moment of the write is
released exactly once (and only those), each observing the new value —
in particular, on a transition away from the observed value no waiter
re-reads the old one; the notification immediately rearms: the waiter
list is emptied, the trace ends with the rearm, a long-poll blocks
exactly when its `cur` equals the current state, and a long-poll
arriving after the transition blocks until the next write, which
releases it exactly once. -/
theorem C1_update_state_notification (st : SrvState) (new : ApplicationState)
    (hnodup : st.waiters.Nodup) :
    (update_state st new).1._state = new ∧
    (update_state st new).1.server_state_file = some new.name ∧
    (update_state st new).2[1]? = some (StateAct.write_file new.name) ∧
    (∀ (j w : Nat) (obs : ApplicationState),
      (update_state st new).2[j]? = some (StateAct.release w obs) →
      2 ≤ j ∧ obs = new) ∧
    (∀ w, w ∈ st.waiters → releaseCount (update_state st new).2 w = 1) ∧
    (∀ w, w ∉ st.waiters → releaseCount (update_state st new).2 w = 0) ∧
    (st._state ≠ new →
      ∀ (j w : Nat) (obs : ApplicationState),
        (update_state st new).2[j]? = some (StateAct.release w obs) →
        obs ≠ st._state) ∧
    (update_state st new).1.waiters = [] ∧
    (update_state st new).2.getLast? = some StateAct.rearm ∧
    (∀ w2 cur, (status_GET st w2 cur).2 = none ↔ cur = some st._state) ∧
    (∀ w2,
      (status_GET (update_state st new).1 w2 (some new)).2 = none ∧
      (status_GET (update_state st new).1 w2 (some new)).1.waiters = [w2] ∧
      ∀ new2, releaseCount
        (update_state (status_GET (update_state st new).1 w2 (some new)).1
          new2).2 w2 = 1) := by
  have hrel : ∀ (j w : Nat) (obs : ApplicationState),
      (update_state st new).2[j]? = some (StateAct.release w obs) →
      2 ≤ j ∧ obs = new := by
    intro j w obs h
    match j with
    | 0 => simp [update_state] at h
    | 1 => simp [update_state] at h
    | j + 2 =>
      refine ⟨by omega, ?_⟩
      have hm : StateAct.release w obs ∈
          (st.waiters.map (fun w0 => StateAct.release w0 new) ++
            [StateAct.rearm]) := by
        have h2 : (st.waiters.map (fun w0 => StateAct.release w0 new) ++
            [StateAct.rearm])[j]? = some (StateAct.release w obs) := by
          simpa [update_state] using h
        exact List.getElem?_mem h2
      rcases List.mem_append.mp hm with hm | hm
      · obtain ⟨w0, _, heq⟩ := List.mem_map.mp hm
        simp at heq
        exact heq.2.symm
      · simp at hm
  refine ⟨rfl, rfl, by simp [update_state], hrel, ?_, ?_, ?_, rfl, ?_, ?_, ?_⟩
  · intro w hw
    rw [releaseCount_update_state]
    exact List.count_eq_one_of_mem hnodup hw
  · intro w hw
    rw [releaseCount_update_state]
    exact List.count_eq_zero_of_not_mem hw
  · intro hne j w obs h
    have := (hrel j w obs h).2
    subst this
    exact fun hh => hne hh.symm
  · show (StateAct.set_state new :: StateAct.write_file new.name ::
      (st.waiters.map (fun w0 => StateAct.release w0 new) ++
        [StateAct.rearm])).getLast? = some StateAct.rearm
    rw [show StateAct.set_state new :: StateAct.write_file new.name ::
        (st.waiters.map (fun w0 => StateAct.release w0 new) ++
          [StateAct.rearm]) =
      (StateAct.set_state new :: StateAct.write_file new.name ::
        st.waiters.map (fun w0 => StateAct.release w0 new)) ++
          [StateAct.rearm] from by simp]
    exact List.getLast?_concat _
  · intro w2 cur
    constructor
    · intro h
      by_contra hne
      simp [status_GET, hne] at h
    · intro h
      simp [status_GET, h]
  · intro w2
    refine ⟨by simp [status_GET, update_state], by simp [status_GET, update_state], ?_⟩
    intro new2
    rw [releaseCount_update_state]
    simp [status_GET, update_state]

/-- C1 witness: one blocked waiter; a write to `WAITING` persists the
name and releases the waiter exactly once. -/
theorem C1_update_state_notification_witness :
    (update_state ⟨.STARTING_UP, none, [7]⟩ .WAITING).1.server_state_file =
      some "WAITING" ∧
    releaseCount (update_state ⟨.STARTING_UP, none, [7]⟩ .WAITING).2 7 = 1 := by
  have h := C1_update_state_notification ⟨.STARTING_UP, none, [7]⟩ .WAITING
    (by simp)
  exact ⟨h.2.1, h.2.2.2.2.1 7 (by simp)⟩

end Subiquity
